import Mathlib

/-
Verification of the session lifecycle engine of the WalletConnect v2 client
(packages/client/src/controllers/session.ts), as a shallow embedding.

Conventions of the embedding:
* TypeScript exceptions become `Except ErrorT` results; a thrown error carries
  the same `ERROR.*` tag the source constructs via `getError`.
* The mutable stores (the pending/settled `Subscription` instances and the
  `JsonRpcHistory`) live in packages not included here; they are modelled
  from the specification (sections 4.1 and 4.2) as association lists and a
  list of history entries, with each modelled operation marked below.
* Async effects (relayer publishes, emitted events) are returned explicitly
  as lists alongside the new state, in the order the source performs them.
* Metadata objects attached to peers are inert for every property proved
  here and are omitted from the peer records.
-/

namespace WC

/-- Error taxonomy: the `ERROR.*` reasons constructed via `getError` in the
source, plus `TYPE_ERROR` for JavaScript runtime type errors (such as
spreading `undefined` into an array literal). -/
inductive ErrorT where
  | UNAUTHORIZED_UPGRADE_REQUEST
  | UNAUTHORIZED_UPDATE_REQUEST
  | INVALID_UPDATE_REQUEST
  | UNAUTHORIZED_JSON_RPC_METHOD (method : String)
  | UNAUTHORIZED_TARGET_CHAIN (chainId : String)
  | UNKNOWN_JSONRPC_METHOD (method : String)
  | UNAUTHORIZED_NOTIFICATION_TYPE (ntype : String)
  | NOT_APPROVED
  | RESPONSE_ACKNOWLEDGED
  | SETTLED_REASON
  | GENERIC (message : String)
  | DUPLICATE_REQUEST
  | MATCHING_REQUEST_NOT_FOUND
  | NO_MATCHING_TOPIC
  | SUBSCRIPTION_ALREADY_EXISTS
  | TRANSPORT_UNAVAILABLE
  | TYPE_ERROR (message : String)
  | EXPIRED
  deriving DecidableEq, Repr

/-- The `.message` string of an error, as read by `catch (e) ... e.message`
sites in the source. Distinct per tag; parameterised tags embed their
parameter. -/
def errorMessage : ErrorT → String
  | .UNAUTHORIZED_UPGRADE_REQUEST => "Unauthorized session upgrade request"
  | .UNAUTHORIZED_UPDATE_REQUEST => "Unauthorized session update request"
  | .INVALID_UPDATE_REQUEST => "Invalid session update request"
  | .UNAUTHORIZED_JSON_RPC_METHOD m => "Unauthorized JSON-RPC method requested: " ++ m
  | .UNAUTHORIZED_TARGET_CHAIN c => "Unauthorized target chain requested: " ++ c
  | .UNKNOWN_JSONRPC_METHOD m => "Unknown JSON-RPC method requested: " ++ m
  | .UNAUTHORIZED_NOTIFICATION_TYPE t => "Unauthorized notification type requested: " ++ t
  | .NOT_APPROVED => "Session not approved"
  | .RESPONSE_ACKNOWLEDGED => "Response acknowledged"
  | .SETTLED_REASON => "Session settled"
  | .GENERIC m => m
  | .DUPLICATE_REQUEST => "Duplicate request at history"
  | .MATCHING_REQUEST_NOT_FOUND => "Matching request for response not found"
  | .NO_MATCHING_TOPIC => "No matching topic"
  | .SUBSCRIPTION_ALREADY_EXISTS => "Subscription already exists"
  | .TRANSPORT_UNAVAILABLE => "Transport unavailable"
  | .TYPE_ERROR m => m
  | .EXPIRED => "Expired"

/-- `CryptoTypes.Participant`: one side of a session, identified by its
public key. -/
structure Participant where
  publicKey : String
  deriving DecidableEq, Repr

/-- `permissions.blockchain` of a session. -/
structure BlockchainPermissions where
  chains : List String
  deriving DecidableEq, Repr

/-- `permissions.jsonrpc` of a session. -/
structure JsonRpcPermissions where
  methods : List String
  deriving DecidableEq, Repr

/-- `permissions.notifications` of a session. -/
structure NotificationPermissions where
  types : List String
  deriving DecidableEq, Repr

/-- Settled-session permissions. `notifications` is optional: the source
reads it with optional chaining (`session.permissions.notifications?.types`),
so its absence is representable. -/
structure SessionPermissions where
  blockchain : BlockchainPermissions
  jsonrpc : JsonRpcPermissions
  notifications : Option NotificationPermissions
  controller : Participant
  deriving DecidableEq, Repr

/-- `SessionTypes.State`: the account list of a settled session. -/
structure SessionState where
  accounts : List String
  deriving DecidableEq, Repr

/-- `SessionTypes.Settled`: a settled session record. -/
structure Settled where
  topic : String
  relay : String
  self : Participant
  peer : Participant
  permissions : SessionPermissions
  expiry : Nat
  state : SessionState
  deriving DecidableEq, Repr

/-- `SessionTypes.Upgrade` request params: each sub-permission block is
optional (the source reads `params.permissions.blockchain?.chains || []`). -/
structure UpgradePermissions where
  blockchain : Option BlockchainPermissions
  jsonrpc : Option JsonRpcPermissions
  notifications : Option NotificationPermissions
  deriving DecidableEq, Repr

/-- Params of a `wc_sessionUpgrade` request. -/
structure UpgradeParams where
  permissions : UpgradePermissions
  deriving DecidableEq, Repr

/-- `Omit<SessionTypes.Permissions, "controller">`: the permission blocks an
upgrade constructs and returns. -/
structure PermissionsBody where
  blockchain : BlockchainPermissions
  jsonrpc : JsonRpcPermissions
  notifications : NotificationPermissions
  deriving DecidableEq, Repr

/-- The `state` field of a `wc_sessionUpdate` request; `accounts` is optional
(the source defaults it with `params.state.accounts || state.accounts`). -/
structure UpdateState where
  accounts : Option (List String)
  deriving DecidableEq, Repr

/-- Params of a `wc_sessionUpdate` request; `state` is optional (the source
branches on `typeof params.state !== "undefined"`). -/
structure UpdateParams where
  state : Option UpdateState
  deriving DecidableEq, Repr

/-- The notification types of a session, reading an absent
`permissions.notifications` as the empty set (used only to state
properties; the code itself is embedded in `handleUpgrade`). -/
def notifTypes (p : SessionPermissions) : List String :=
  (p.notifications.map NotificationPermissions.types).getD []

/-- `handleUpgrade` (session.ts lines 634-670), per session record. The first
component of the result is the session the settled store holds after the
call: the source throws before its single mutation point
(`session.permissions = ...`), so on error the session is unchanged.
When `session.permissions.notifications` is absent, the array literal
`[...session.permissions.notifications?.types, ...]` spreads `undefined`,
which throws a runtime `TypeError` (the params side is guarded with
`|| []`; the session side is not). -/
def handleUpgrade (session : Settled) (params : UpgradeParams) (participant : Participant) :
    Settled × Except ErrorT PermissionsBody :=
  if participant.publicKey = session.permissions.controller.publicKey then
    match session.permissions.notifications with
    | none => (session, .error (.TYPE_ERROR "undefined is not iterable"))
    | some notif =>
      let body : PermissionsBody :=
        { blockchain := ⟨session.permissions.blockchain.chains ++
            ((params.permissions.blockchain.map BlockchainPermissions.chains).getD [])⟩
          jsonrpc := ⟨session.permissions.jsonrpc.methods ++
            ((params.permissions.jsonrpc.map JsonRpcPermissions.methods).getD [])⟩
          notifications := ⟨notif.types ++
            ((params.permissions.notifications.map NotificationPermissions.types).getD [])⟩ }
      let updated : Settled := { session with permissions :=
        { blockchain := body.blockchain
          jsonrpc := body.jsonrpc
          notifications := some body.notifications
          controller := session.permissions.controller } }
      (updated, .ok body)
  else
    (session, .error .UNAUTHORIZED_UPGRADE_REQUEST)

/-- `handleUpdate` (session.ts lines 609-632), per session record. The first
component is the session the settled store holds after the call; both throw
sites precede the mutation of `state.accounts`. -/
def handleUpdate (session : Settled) (params : UpdateParams) (participant : Participant) :
    Settled × Except ErrorT SessionState :=
  match params.state with
  | some st =>
    if participant.publicKey = session.permissions.controller.publicKey then
      let accounts := st.accounts.getD session.state.accounts
      let updated : Settled := { session with state := ⟨accounts⟩ }
      (updated, .ok ⟨accounts⟩)
    else
      (session, .error .UNAUTHORIZED_UPDATE_REQUEST)
  | none => (session, .error .INVALID_UPDATE_REQUEST)

/-- Structured params of a JSON-RPC payload, rich enough for the shapes the
session engine constructs and inspects: the `wc_sessionPayload` envelope
`{ chainId, request: { method, params } }`, the params of
update/upgrade/notification/delete requests, an opaque blob for application
requests, and the empty object (used by `wc_sessionPing`). -/
inductive RpcParams where
  | empty
  | raw (value : String)
  | envelope (chainId : Option String) (method : String) (inner : RpcParams)
  | updateArgs (u : UpdateParams)
  | upgradeArgs (u : UpgradeParams)
  | notificationArgs (ntype : String) (ndata : String)
  | deleteArgs (reason : ErrorT)
  deriving DecidableEq, Repr

/-- A JSON-RPC payload: a request, a success result (the engine only ever
formats boolean results), or an error response. -/
inductive Payload where
  | request (id : Nat) (method : String) (params : RpcParams)
  | result (id : Nat) (value : Bool)
  | rpcError (id : Nat) (error : ErrorT)
  deriving DecidableEq, Repr

/-- `isJsonRpcRequest` from `@json-rpc-tools/utils`. -/
def isJsonRpcRequest : Payload → Bool
  | .request .. => true
  | _ => false

/-- The JSON-RPC id of a payload. -/
def payloadId : Payload → Nat
  | .request i .. => i
  | .result i _ => i
  | .rpcError i _ => i

/-- Modelled from the spec: section 6 lists the wire-protocol methods; these
are the values of the `SESSION_JSONRPC` constant (the constants file is not
among the provided sources). `send` treats exactly these as built-in
session-management methods. -/
def SESSION_JSONRPC_METHODS : List String :=
  ["wc_sessionPropose", "wc_sessionApprove", "wc_sessionReject",
   "wc_sessionUpdate", "wc_sessionUpgrade", "wc_sessionDelete",
   "wc_sessionPayload", "wc_sessionNotification", "wc_sessionPing"]

/-- Modelled from the spec: section 4.2 — one history entry per
`(topic, requestId)`, with the response attached when it arrives. -/
structure HistoryEntry where
  topic : String
  id : Nat
  request : Payload
  chainId : Option String
  response : Option Payload
  deriving DecidableEq, Repr

/-- Modelled from the spec: `exists(topic, id)` is a pure lookup that never
fails (section 4.2). -/
def historyExists (h : List HistoryEntry) (topic : String) (id : Nat) : Bool :=
  h.any (fun e => e.topic == topic && e.id == id)

/-- Modelled from the spec: `set(topic, request, chainId?)` records a new
request keyed by `(topic, request.id)` and fails with `DUPLICATE_REQUEST`
if the pair already exists (section 4.2). -/
def historySet (h : List HistoryEntry) (topic : String) (payload : Payload)
    (chainId : Option String) : Except ErrorT (List HistoryEntry) :=
  if historyExists h topic (payloadId payload) then
    .error .DUPLICATE_REQUEST
  else
    .ok (⟨topic, payloadId payload, payload, chainId, none⟩ :: h)

/-- Modelled from the spec: `update(topic, response)` attaches the response
to the matching request, idempotently and last-write-wins (section 4.2).
Section 4.2 also names a `MATCHING_REQUEST_NOT_FOUND` failure for a response
with no recorded request, but sections 4.3 and 7 require replies to built-in
requests (whose inbound requests are never recorded) to be published and
benign local conditions to be absorbed, so the missing-record case is
modelled as leaving history unchanged rather than failing the send. -/
def historyUpdate (h : List HistoryEntry) (topic : String) (payload : Payload) :
    List HistoryEntry :=
  h.map (fun e =>
    if e.topic == topic && e.id == payloadId payload then
      { e with response := some payload }
    else e)

/-- Modelled from the spec: `delete(topic)` purges all entries for a topic
(section 4.2). -/
def historyPurge (h : List HistoryEntry) (topic : String) : List HistoryEntry :=
  h.filter (fun e => e.topic != topic)

/-- Lookup in a topic-keyed store (the `Subscription` class's map, modelled
from spec section 4.1). -/
def lookupStore {α : Type} (store : List (String × α)) (topic : String) : Option α :=
  (store.find? (fun kv => kv.1 == topic)).map Prod.snd

/-- Modelled from the spec: `set(topic, data, opts)` inserts if absent and is
rejected with `SUBSCRIPTION_ALREADY_EXISTS` if present (records are
create-once); the initial relay subscribe can fail on transport
unavailability, leaving no partial record (section 4.1). `transportOk`
injects that environmental failure. -/
def storeSet {α : Type} (transportOk : Bool) (store : List (String × α))
    (topic : String) (v : α) : List (String × α) × Except ErrorT Unit :=
  if (lookupStore store topic).isSome then
    (store, .error .SUBSCRIPTION_ALREADY_EXISTS)
  else if transportOk then
    ((topic, v) :: store, .ok ())
  else
    (store, .error .TRANSPORT_UNAVAILABLE)

/-- Modelled from the spec: `delete(topic, reason)` removes the record and is
an idempotent no-op on an unknown topic (section 4.1). -/
def storeRemove {α : Type} (store : List (String × α)) (topic : String) :
    List (String × α) :=
  store.filter (fun kv => kv.1 != topic)

/-- Modelled from the spec: `update(topic, partial)` merges fields into an
existing record (section 4.1); the engine always passes the whole mutated
record, so the merge is a replacement. -/
def storeReplace {α : Type} (store : List (String × α)) (topic : String) (v : α) :
    List (String × α) :=
  store.map (fun kv => if kv.1 == topic then (topic, v) else kv)

/-- Status of a pending record (`SESSION_STATUS`). -/
inductive PendingStatus where
  | proposed
  | responded
  deriving DecidableEq, Repr

/-- `SessionTypes.Outcome`: failure with a reason, or success carrying the
settled topic, relay, state, responder and expiry. -/
inductive SessionOutcome where
  | failure (reason : ErrorT)
  | success (topic : String) (relay : String) (state : SessionState)
      (responder : Participant) (expiry : Nat)
  deriving DecidableEq, Repr

/-- `isSessionFailed` from `@walletconnect/utils`: an outcome is failed when
it carries a reason. -/
def isSessionFailedOutcome : SessionOutcome → Bool
  | .failure _ => true
  | _ => false

/-- `SessionTypes.ProposedPeer`: the proposer, with its controller flag. -/
structure ProposedPeer where
  publicKey : String
  controller : Bool
  deriving DecidableEq, Repr

/-- Proposal-side permissions (no controller yet); `notifications` optional,
matching the settled shape. -/
structure ProposedPermissions where
  blockchain : BlockchainPermissions
  jsonrpc : JsonRpcPermissions
  notifications : Option NotificationPermissions
  deriving DecidableEq, Repr

/-- `SessionTypes.Proposal`. -/
structure Proposal where
  topic : String
  relay : String
  proposer : ProposedPeer
  signalTopic : String
  permissions : ProposedPermissions
  ttl : Nat
  deriving DecidableEq, Repr

/-- `SessionTypes.Pending`: a pending record; `outcome` is present exactly on
responded records (the source expresses this as a discriminated union). -/
structure Pending where
  status : PendingStatus
  topic : String
  relay : String
  self : Participant
  proposal : Proposal
  outcome : Option SessionOutcome
  deriving DecidableEq, Repr

/-- `isSessionResponded` from `@walletconnect/utils`. -/
def isSessionResponded (p : Pending) : Bool :=
  p.status == .responded

/-- The session engine's persistent state: the pending and settled stores and
the request history. -/
structure EngineState where
  pending : List (String × Pending)
  settled : List (String × Settled)
  history : List HistoryEntry
  deriving DecidableEq, Repr

/-- A payload published to the relay, as `(topic, payload)`. -/
def Published : Type := String × Payload

/-- Events the engine emits to its own subscribers (plus store-level deleted
events, which the engine's listeners observe and cascade on). -/
inductive Emitted where
  | requestEv (topic : String) (payload : Payload) (chainId : Option String)
  | responseEv (topic : String) (payload : Payload) (chainId : Option String)
  | notificationEv (topic : String) (ntype : String) (ndata : String)
  | settledDeletedEv (topic : String) (reason : ErrorT)
  | settledUpdatedEv (topic : String)
  | pendingDeletedEv (topic : String) (reason : ErrorT)
  deriving DecidableEq, Repr

/-- Deletion of a settled session together with the cascade the engine's
`SUBSCRIPTION_EVENTS.deleted` listener performs (session.ts lines 800-813):
emit the deleted event, purge the request history for the session topic, and
publish a `wc_sessionDelete` request carrying the reason on the session
topic. Deleting an unknown topic is a no-op (spec section 4.1). The fresh
JSON-RPC id `formatJsonRpcRequest` generates is modelled as `0`. -/
def settledDelete (st : EngineState) (topic : String) (reason : ErrorT) :
    EngineState × List Published × List Emitted :=
  match lookupStore st.settled topic with
  | none => (st, [], [])
  | some session =>
    ({ st with settled := storeRemove st.settled topic
               history := historyPurge st.history session.topic },
     [(session.topic, .request 0 "wc_sessionDelete" (.deleteArgs reason))],
     [.settledDeletedEv session.topic reason])

/-- Deletion of a pending record (spec section 4.1: removes the record and
fires a deleted event; no-op on an unknown topic). -/
def pendingDelete (st : EngineState) (topic : String) (reason : ErrorT) :
    EngineState × List Emitted :=
  ({ st with pending := storeRemove st.pending topic },
   if (lookupStore st.pending topic).isSome then
     [.pendingDeletedEv topic reason]
   else [])

/-- `send` (session.ts lines 90-125). Looks up the settled session; for a
request whose method is not a built-in `SESSION_JSONRPC` value, enforces
`permissions.jsonrpc.methods` membership and, when a chainId is given,
`permissions.blockchain.chains` membership, then records the request in
history and publishes it wrapped in a `wc_sessionPayload` envelope; built-in
requests are published as-is; responses are attached to history and
published as-is. Errors abort before any history write or publish. -/
def send (st : EngineState) (topic : String) (payload : Payload)
    (chainId : Option String) :
    EngineState × List Published × Except ErrorT Unit :=
  match lookupStore st.settled topic with
  | none => (st, [], .error .NO_MATCHING_TOPIC)
  | some session =>
    match payload with
    | .request id method ps =>
      if SESSION_JSONRPC_METHODS.contains method then
        (st, [(session.topic, .request id method ps)], .ok ())
      else if session.permissions.jsonrpc.methods.contains method then
        let proceed : EngineState × List Published × Except ErrorT Unit :=
          match historySet st.history topic (.request id method ps) chainId with
          | .error e => (st, [], .error e)
          | .ok h =>
            ({ st with history := h },
             [(session.topic, .request id "wc_sessionPayload" (.envelope chainId method ps))],
             .ok ())
        match chainId with
        | some c =>
          if session.permissions.blockchain.chains.contains c then proceed
          else (st, [], .error (.UNAUTHORIZED_TARGET_CHAIN c))
        | none => proceed
      else
        (st, [], .error (.UNAUTHORIZED_JSON_RPC_METHOD method))
    | _ =>
      ({ st with history := historyUpdate st.history topic payload },
       [(session.topic, payload)], .ok ())

/-- `shouldIgnorePayloadEvent` (session.ts lines 686-696). The
`settled.subscriptions.has(topic)` check is modelled as settled-store
membership (spec section 4.1: `set` subscribes the topic, `delete`
unsubscribes it). `history.exists` never fails (spec section 4.2), so the
source's try/catch around it is inert. -/
def shouldIgnorePayloadEvent (st : EngineState) (topic : String) (payload : Payload) :
    Bool :=
  if (lookupStore st.settled topic).isNone then true
  else historyExists st.history topic (payloadId payload)

/-- `onPayloadEvent` (session.ts lines 698-717): requests are dropped when
`shouldIgnorePayloadEvent` holds, otherwise recorded in history and emitted
as a `request` event; responses are attached to history and emitted as a
`response` event. -/
def onPayloadEvent (st : EngineState) (topic : String) (payload : Payload)
    (chainId : Option String) :
    EngineState × List Emitted × Except ErrorT Unit :=
  match payload with
  | .request .. =>
    if shouldIgnorePayloadEvent st topic payload then
      (st, [], .ok ())
    else
      match historySet st.history topic payload chainId with
      | .error e => (st, [], .error e)
      | .ok h =>
        ({ st with history := h }, [.requestEv topic payload chainId], .ok ())
  | _ =>
    ({ st with history := historyUpdate st.history topic payload },
     [.responseEv topic payload chainId], .ok ())

/-- `onPayload` (session.ts lines 541-571) for an inbound request: unwraps
the `wc_sessionPayload` envelope, checks the inner method against
`permissions.jsonrpc.methods` (throwing `UNAUTHORIZED_JSON_RPC_METHOD`
otherwise), and forwards to `onPayloadEvent`. Only the envelope shape
reaches this path from `onMessage`; other shapes are the JavaScript runtime
error of reading fields off a params object without them. -/
def onPayload (st : EngineState) (topic : String) (id : Nat) (ps : RpcParams) :
    EngineState × List Published × List Emitted × Except ErrorT Unit :=
  match ps with
  | .envelope chainId method inner =>
    match lookupStore st.settled topic with
    | none => (st, [], [], .error .NO_MATCHING_TOPIC)
    | some session =>
      if session.permissions.jsonrpc.methods.contains method then
        let r := onPayloadEvent st topic (.request id method inner) chainId
        (r.1, [], r.2.1, r.2.2)
      else
        (st, [], [], .error (.UNAUTHORIZED_JSON_RPC_METHOD method))
  | _ => (st, [], [], .error (.TYPE_ERROR "invalid payload params"))

/-- The settled store write `handleUpdate`/`handleUpgrade` perform via
`this.settled.update(session.topic, session)`, with its updated event. -/
def settledWrite (st : EngineState) (topic : String) (session : Settled) :
    EngineState × List Emitted :=
  ({ st with settled := storeReplace st.settled topic session },
   [.settledUpdatedEv topic])

/-- `onUpdate` (session.ts lines 573-589): applies `handleUpdate` with the
peer as participant and replies with a result or error response. -/
def onUpdate (st : EngineState) (topic : String) (id : Nat) (params : UpdateParams) :
    EngineState × List Published × List Emitted × Except ErrorT Unit :=
  match lookupStore st.settled topic with
  | none => (st, [], [], .error .NO_MATCHING_TOPIC)
  | some session =>
    match handleUpdate session params ⟨session.peer.publicKey⟩ with
    | (updated, .ok _) =>
      let w := settledWrite st topic updated
      let r := send w.1 session.topic (.result id true) none
      (r.1, r.2.1, w.2, r.2.2)
    | (_, .error e) =>
      let r := send st session.topic (.rpcError id e) none
      (r.1, r.2.1, [], r.2.2)

/-- `onUpgrade` (session.ts lines 591-607): applies `handleUpgrade` with the
peer as participant and replies with a result or error response. -/
def onUpgrade (st : EngineState) (topic : String) (id : Nat) (params : UpgradeParams) :
    EngineState × List Published × List Emitted × Except ErrorT Unit :=
  match lookupStore st.settled topic with
  | none => (st, [], [], .error .NO_MATCHING_TOPIC)
  | some session =>
    match handleUpgrade session params ⟨session.peer.publicKey⟩ with
    | (updated, .ok _) =>
      let w := settledWrite st topic updated
      let r := send w.1 session.topic (.result id true) none
      (r.1, r.2.1, w.2, r.2.2)
    | (_, .error e) =>
      let r := send st session.topic (.rpcError id e) none
      (r.1, r.2.1, [], r.2.2)

/-- `onMessage` (session.ts lines 503-539): inbound payloads on a settled
topic. Requests are dispatched on the JSON-RPC method — payload, update,
upgrade, notification, delete, ping (replying `formatJsonRpcResult(id,
false)`), and a `UNKNOWN_JSONRPC_METHOD` error reply for anything else;
responses go to `onPayloadEvent`. -/
def onMessage (st : EngineState) (topic : String) (payload : Payload) :
    EngineState × List Published × List Emitted × Except ErrorT Unit :=
  match payload with
  | .request id method ps =>
    match lookupStore st.settled topic with
    | none => (st, [], [], .error .NO_MATCHING_TOPIC)
    | some session =>
      if method == "wc_sessionPayload" then
        onPayload st topic id ps
      else if method == "wc_sessionUpdate" then
        match ps with
        | .updateArgs u => onUpdate st topic id u
        | _ => (st, [], [], .error (.TYPE_ERROR "invalid update params"))
      else if method == "wc_sessionUpgrade" then
        match ps with
        | .upgradeArgs u => onUpgrade st topic id u
        | _ => (st, [], [], .error (.TYPE_ERROR "invalid upgrade params"))
      else if method == "wc_sessionNotification" then
        match ps with
        | .notificationArgs t d => (st, [], [.notificationEv topic t d], .ok ())
        | _ => (st, [], [], .error (.TYPE_ERROR "invalid notification params"))
      else if method == "wc_sessionDelete" then
        match ps with
        | .deleteArgs reason =>
          let r := settledDelete st session.topic reason
          (r.1, r.2.1, r.2.2, .ok ())
        | _ => (st, [], [], .error (.TYPE_ERROR "invalid delete params"))
      else if method == "wc_sessionPing" then
        let r := send st session.topic (.result id false) none
        (r.1, r.2.1, [], r.2.2)
      else
        let r := send st session.topic (.rpcError id (.UNKNOWN_JSONRPC_METHOD method)) none
        (r.1, r.2.1, [], r.2.2)
  | _ =>
    let r := onPayloadEvent st topic payload none
    (r.1, [], r.2.1, r.2.2)

/-- `onAcknowledge` (session.ts lines 489-501): on an inbound acknowledgement
for a pending topic, a non-responded record is left alone; for a responded
record, an error response together with a non-failed outcome rolls back the
settlement by deleting the settled record at the outcome topic with that
error as reason, and in all cases the pending record is deleted with reason
`RESPONSE_ACKNOWLEDGED`. -/
def onAcknowledge (st : EngineState) (topic : String) (payload : Payload) :
    EngineState × List Published × List Emitted × Except ErrorT Unit :=
  match lookupStore st.pending topic with
  | none => (st, [], [], .error .NO_MATCHING_TOPIC)
  | some pendingRec =>
    if isSessionResponded pendingRec then
      match pendingRec.outcome with
      | none => (st, [], [], .error (.TYPE_ERROR "missing outcome"))
      | some outcome =>
        let rollback :=
          match payload, outcome with
          | .rpcError _ e, .success stopic _ _ _ _ => settledDelete st stopic e
          | _, _ => (st, [], [])
        let deleted := pendingDelete rollback.1 topic .RESPONSE_ACKNOWLEDGED
        (deleted.1, rollback.2.1, rollback.2.2 ++ deleted.2, .ok ())
    else
      (st, [], [], .ok ())

/-- Params of the public `delete` operation. -/
structure DeleteParams where
  topic : String
  reason : ErrorT
  deriving DecidableEq, Repr

/-- The public `delete` (session.ts lines 329-333): delegates to
`settled.delete`, whose deleted event cascades per `settledDelete`. -/
def deleteSession (st : EngineState) (params : DeleteParams) :
    EngineState × List Published × List Emitted :=
  settledDelete st params.topic params.reason

/-- How `request()` (session.ts lines 296-327) resolves a correlated inbound
response: a result payload resolves with its `result` value, an error
payload rejects with the error; requests are not responses. -/
def responseResolution : Payload → Option (Except ErrorT Bool)
  | .result _ v => some (.ok v)
  | .rpcError _ e => some (.error e)
  | .request .. => none

/-- `SessionTypes.SettleParams`. -/
structure SettleParams where
  relay : String
  self : Participant
  peer : Participant
  permissions : SessionPermissions
  ttl : Nat
  expiry : Nat
  state : SessionState
  deriving DecidableEq, Repr

/-- `settle` (session.ts lines 411-429): derives the session topic from the
two peers' key material (`crypto.generateSharedKey`, modelled by the
`derive` capability), builds the settled record and writes it to the settled
store; `transportOk` injects transport failure of the store write. -/
def settle (derive : String → String → String) (transportOk : Bool)
    (settledStore : List (String × Settled)) (params : SettleParams) :
    List (String × Settled) × Except ErrorT Settled :=
  let topic := derive params.self.publicKey params.peer.publicKey
  let session : Settled :=
    { topic := topic, relay := params.relay, self := params.self,
      peer := params.peer, permissions := params.permissions,
      expiry := params.expiry, state := params.state }
  match storeSet transportOk settledStore topic session with
  | (store, .ok _) => (store, .ok session)
  | (store, .error e) => (store, .error e)

/-- `SessionTypes.RespondParams`: approval flag, the proposal, the
responder's `response.state`, and an optional rejection reason. -/
structure RespondParams where
  approved : Bool
  proposal : Proposal
  responseState : SessionState
  reason : Option ErrorT
  deriving DecidableEq, Repr

/-- `respond` (session.ts lines 189-272). `selfKey` is the fresh key pair
`crypto.generateKeyPair()` returns, `now` the clock reading; the pairing
lookup and shared-key derivation for the proposal topic (lines 200-201,
before either branch) are modelled as succeeding. On approval the settle
step runs inside a try whose catch writes a responded pending record with a
`GENERIC` reason built from the caught message; the rejected branch writes a
responded record with the supplied or default `NOT_APPROVED` reason. The
pending-store write itself (`pending.set`) can fail; a failure inside the
try is caught and retried once with the failure record, and a failure of
that write propagates. Returns the pending store, the settled store and the
result, in state-passing style. -/
def respond (selfKey : String) (now : Nat) (derive : String → String → String)
    (settledOk : Bool) (pendingOk : Bool)
    (pendingStore : List (String × Pending)) (settledStore : List (String × Settled))
    (params : RespondParams) :
    List (String × Pending) × List (String × Settled) × Except ErrorT Pending :=
  let selfP : Participant := ⟨selfKey⟩
  let proposal := params.proposal
  if params.approved then
    let expiry := now + proposal.ttl * 1000
    let state := params.responseState
    let controller : Participant :=
      if proposal.proposer.controller then ⟨proposal.proposer.publicKey⟩ else ⟨selfKey⟩
    let sp : SettleParams :=
      { relay := proposal.relay, self := selfP,
        peer := ⟨proposal.proposer.publicKey⟩,
        permissions :=
          { blockchain := proposal.permissions.blockchain,
            jsonrpc := proposal.permissions.jsonrpc,
            notifications := proposal.permissions.notifications,
            controller := controller },
        ttl := proposal.ttl, expiry := expiry, state := state }
    let catchWith (settledAfter : List (String × Settled)) (e : ErrorT) :
        List (String × Pending) × List (String × Settled) × Except ErrorT Pending :=
      let failureRec : Pending :=
        { status := .responded, topic := proposal.topic, relay := proposal.relay,
          self := selfP, proposal := proposal,
          outcome := some (.failure (.GENERIC (errorMessage e))) }
      match storeSet pendingOk pendingStore proposal.topic failureRec with
      | (pendingAfter, .ok _) => (pendingAfter, settledAfter, .ok failureRec)
      | (pendingAfter, .error e2) => (pendingAfter, settledAfter, .error e2)
    match settle derive settledOk settledStore sp with
    | (settledAfter, .ok session) =>
      let outcome : SessionOutcome :=
        .success session.topic session.relay session.state selfP expiry
      let okRec : Pending :=
        { status := .responded, topic := proposal.topic, relay := proposal.relay,
          self := selfP, proposal := proposal, outcome := some outcome }
      match storeSet pendingOk pendingStore proposal.topic okRec with
      | (pendingAfter, .ok _) => (pendingAfter, settledAfter, .ok okRec)
      | (_, .error e) => catchWith settledAfter e
    | (settledAfter, .error e) => catchWith settledAfter e
  else
    let reason := params.reason.getD .NOT_APPROVED
    let rejectedRec : Pending :=
      { status := .responded, topic := proposal.topic, relay := proposal.relay,
        self := selfP, proposal := proposal, outcome := some (.failure reason) }
    match storeSet pendingOk pendingStore proposal.topic rejectedRec with
    | (pendingAfter, .ok _) => (pendingAfter, settledStore, .ok rejectedRec)
    | (pendingAfter, .error e) => (pendingAfter, settledStore, .error e)

/- ------------------------------------------------------------------ -/
/- Sample inputs used by witnesses.                                    -/
/- ------------------------------------------------------------------ -/

/-- A sample settled session: controller is the local participant. -/
def sampleSession : Settled :=
  { topic := "st", relay := "r", self := ⟨"me"⟩, peer := ⟨"you"⟩,
    permissions := { blockchain := ⟨["c1"]⟩, jsonrpc := ⟨["m1"]⟩,
                     notifications := some ⟨["t1"]⟩, controller := ⟨"me"⟩ },
    expiry := 9, state := ⟨["a1"]⟩ }

/-- A sample upgrade request adding one chain and one notification type. -/
def sampleUpgrade : UpgradeParams :=
  ⟨⟨some ⟨["c2"]⟩, none, some ⟨["t2"]⟩⟩⟩

/-- A sample engine state holding `sampleSession` and an empty history. -/
def sampleState : EngineState :=
  { pending := [], settled := [("st", sampleSession)], history := [] }

/-- A sample proposal whose proposer declares itself controller. -/
def sampleProposal : Proposal :=
  ⟨"pt", "r", ⟨"you", true⟩, "pair", ⟨⟨["c1"]⟩, ⟨["m1"]⟩, some ⟨["t1"]⟩⟩, 10⟩

/- ------------------------------------------------------------------ -/
/- Claims.                                                             -/
/- ------------------------------------------------------------------ -/

/-- Claim C1: for every settled session and upgrade request, an upgrade by
the controller that completes yields permission sets (blockchain.chains,
jsonrpc.methods, notifications.types) that are supersets of the pre-upgrade
sets, and an upgrade by a non-controller fails with
`UNAUTHORIZED_UPGRADE_REQUEST` leaving the session unchanged. -/
theorem c1_upgrade_monotonic_and_controller_gated
    (session updated : Settled) (params : UpgradeParams) (participant : Participant)
    (body : PermissionsBody) :
    (participant.publicKey = session.permissions.controller.publicKey →
      handleUpgrade session params participant = (updated, .ok body) →
      (∀ c ∈ session.permissions.blockchain.chains,
         c ∈ updated.permissions.blockchain.chains) ∧
      (∀ m ∈ session.permissions.jsonrpc.methods,
         m ∈ updated.permissions.jsonrpc.methods) ∧
      (∀ t ∈ notifTypes session.permissions, t ∈ notifTypes updated.permissions)) ∧
    (participant.publicKey ≠ session.permissions.controller.publicKey →
      handleUpgrade session params participant =
        (session, .error .UNAUTHORIZED_UPGRADE_REQUEST)) := by
  constructor
  · intro hctrl heq
    unfold handleUpgrade at heq
    rw [if_pos hctrl] at heq
    cases hnotif : session.permissions.notifications with
    | none => rw [hnotif] at heq; exact absurd heq (by simp)
    | some notif =>
      rw [hnotif] at heq
      simp only [Prod.mk.injEq, Except.ok.injEq] at heq
      obtain ⟨hu, _⟩ := heq
      subst hu
      refine ⟨?_, ?_, ?_⟩
      · intro c hc; exact List.mem_append_left _ hc
      · intro m hm; exact List.mem_append_left _ hm
      · intro t ht
        simp only [notifTypes, hnotif, Option.map_some, Option.getD_some] at ht ⊢
        exact List.mem_append_left _ ht
  · intro hne
    unfold handleUpgrade
    rw [if_neg hne]

/-- Witness for C1 at concrete inputs: the controller branch with its
equation hypothesis discharged, and the non-controller branch. -/
theorem c1_upgrade_monotonic_and_controller_gated_witness :
    (∀ c ∈ sampleSession.permissions.blockchain.chains,
       c ∈ (handleUpgrade sampleSession sampleUpgrade ⟨"me"⟩).1.permissions.blockchain.chains) ∧
    handleUpgrade sampleSession sampleUpgrade ⟨"you"⟩ =
      (sampleSession, .error .UNAUTHORIZED_UPGRADE_REQUEST) :=
  ⟨((c1_upgrade_monotonic_and_controller_gated sampleSession
      (handleUpgrade sampleSession sampleUpgrade ⟨"me"⟩).1 sampleUpgrade ⟨"me"⟩
      ⟨⟨["c1", "c2"]⟩, ⟨["m1"]⟩, ⟨["t1", "t2"]⟩⟩).1 rfl rfl).1,
   (c1_upgrade_monotonic_and_controller_gated sampleSession sampleSession
      sampleUpgrade ⟨"you"⟩ ⟨⟨[]⟩, ⟨[]⟩, ⟨[]⟩⟩).2 (by decide)⟩

/-- Claim C9 (code bug): on a session whose optional
`permissions.notifications` is absent, a controller-initiated upgrade does
not succeed with the absent set read as empty; the array literal in
`handleUpgrade` spreads `notifications?.types`, i.e. `undefined`, and
throws a runtime TypeError (the guard `|| []` present on the params side is
missing on the session side), leaving the session unchanged. -/
theorem c9_upgrade_throws_on_absent_notifications :
    handleUpgrade
      { sampleSession with permissions :=
          { sampleSession.permissions with notifications := none } }
      sampleUpgrade ⟨"me"⟩ =
    ({ sampleSession with permissions :=
        { sampleSession.permissions with notifications := none } },
     .error (.TYPE_ERROR "undefined is not iterable")) := rfl

/-- Claim C6: for an update request carrying a state field, a non-controller
request fails with `UNAUTHORIZED_UPDATE_REQUEST` leaving the session (and
so `state.accounts`) unchanged; a controller request supplying accounts
makes `state.accounts` exactly the supplied list while permissions, peer,
self, relay, expiry and topic are unchanged. -/
theorem c6_update_replaces_exactly_accounts
    (session : Settled) (st : UpdateState) (participant : Participant) :
    (participant.publicKey ≠ session.permissions.controller.publicKey →
      handleUpdate session ⟨some st⟩ participant =
        (session, .error .UNAUTHORIZED_UPDATE_REQUEST)) ∧
    (participant.publicKey = session.permissions.controller.publicKey →
      ∀ accts, st.accounts = some accts →
      ((handleUpdate session ⟨some st⟩ participant).1.state.accounts = accts ∧
       (handleUpdate session ⟨some st⟩ participant).1.permissions = session.permissions ∧
       (handleUpdate session ⟨some st⟩ participant).1.peer = session.peer ∧
       (handleUpdate session ⟨some st⟩ participant).1.self = session.self ∧
       (handleUpdate session ⟨some st⟩ participant).1.relay = session.relay ∧
       (handleUpdate session ⟨some st⟩ participant).1.expiry = session.expiry ∧
       (handleUpdate session ⟨some st⟩ participant).1.topic = session.topic)) := by
  constructor
  · intro hne
    simp [handleUpdate, hne]
  · intro hctrl accts haccts
    simp [handleUpdate, hctrl, haccts]

/-- Witness for C6 at concrete inputs: both branches discharged. -/
theorem c6_update_replaces_exactly_accounts_witness :
    handleUpdate sampleSession ⟨some ⟨some ["b1"]⟩⟩ ⟨"you"⟩ =
      (sampleSession, .error .UNAUTHORIZED_UPDATE_REQUEST) ∧
    (handleUpdate sampleSession ⟨some ⟨some ["b1"]⟩⟩ ⟨"me"⟩).1.state.accounts = ["b1"] :=
  ⟨(c6_update_replaces_exactly_accounts sampleSession ⟨some ["b1"]⟩ ⟨"you"⟩).1 (by decide),
   ((c6_update_replaces_exactly_accounts sampleSession ⟨some ["b1"]⟩ ⟨"me"⟩).2
      (by decide) ["b1"] rfl).1⟩

/-- Number of history entries recorded for a `(topic, requestId)` pair. -/
def historyCount (h : List HistoryEntry) (t : String) (i : Nat) : Nat :=
  (h.filter (fun e => e.topic == t && e.id == i)).length

theorem historyCount_zero_of_not_exists (h : List HistoryEntry) (t : String) (i : Nat)
    (hx : historyExists h t i = false) : historyCount h t i = 0 := by
  induction h with
  | nil => rfl
  | cons e rest ih =>
    simp only [historyExists, List.any_cons, Bool.or_eq_false_iff] at hx
    obtain ⟨h1, h2⟩ := hx
    simp only [historyCount, List.filter_cons, h1, Bool.false_eq_true, if_false]
    exact ih h2

theorem historySet_preserves_dedup (h h2 : List HistoryEntry) (topic : String)
    (payload : Payload) (chainId : Option String)
    (hset : historySet h topic payload chainId = .ok h2)
    (hinv : ∀ t i, historyCount h t i ≤ 1) :
    ∀ t i, historyCount h2 t i ≤ 1 := by
  unfold historySet at hset
  by_cases hex : historyExists h topic (payloadId payload) = true
  · rw [if_pos hex] at hset
    exact absurd hset (by simp)
  · have hex2 : historyExists h topic (payloadId payload) = false := by
      cases hb : historyExists h topic (payloadId payload)
      · rfl
      · exact absurd hb hex
    rw [if_neg hex] at hset
    injection hset with hset
    subst hset
    intro t i
    simp only [historyCount, List.filter_cons]
    by_cases hp : ((⟨topic, payloadId payload, payload, chainId, none⟩ :
        HistoryEntry).topic == t && (⟨topic, payloadId payload, payload, chainId, none⟩ :
        HistoryEntry).id == i) = true
    · simp only [hp, if_true, List.length_cons]
      simp only [Bool.and_eq_true, beq_iff_eq] at hp
      obtain ⟨hpt, hpi⟩ := hp
      have hz : historyCount h t i = 0 := by
        refine historyCount_zero_of_not_exists h t i ?_
        rw [← hpt, ← hpi]
        exact hex2
      simp only [historyCount] at hz
      omega
    · simp only [hp, Bool.false_eq_true, if_false]
      exact hinv t i

/-- Claim C2: an inbound JSON-RPC request on a topic with no settled
subscription, or whose `(topic, id)` pair is already in history, makes
`onPayloadEvent` a no-op — no event, no history write; and processing an
inbound request preserves the invariant of at most one history entry per
`(topic, requestId)`. -/
theorem c2_duplicate_requests_dropped
    (st : EngineState) (topic : String) (id : Nat) (method : String)
    (ps : RpcParams) (chainId : Option String) :
    ((lookupStore st.settled topic = none ∨ historyExists st.history topic id = true) →
      onPayloadEvent st topic (.request id method ps) chainId = (st, [], .ok ())) ∧
    ((∀ t i, historyCount st.history t i ≤ 1) →
      ∀ t i,
        historyCount (onPayloadEvent st topic (.request id method ps) chainId).1.history
          t i ≤ 1) := by
  constructor
  · intro hyp
    have hig : shouldIgnorePayloadEvent st topic (.request id method ps) = true := by
      unfold shouldIgnorePayloadEvent
      rcases hyp with hnone | hex
      · rw [if_pos (by rw [hnone]; rfl)]
      · by_cases hl : (lookupStore st.settled topic).isNone
        · rw [if_pos hl]
        · rw [if_neg hl]; exact hex
    unfold onPayloadEvent
    rw [if_pos hig]
  · intro hinv t i
    unfold onPayloadEvent
    by_cases hig : shouldIgnorePayloadEvent st topic (.request id method ps) = true
    · rw [if_pos hig]
      exact hinv t i
    · rw [if_neg hig]
      rcases hset : historySet st.history topic (.request id method ps) chainId with e | h2
      · exact hinv t i
      · exact historySet_preserves_dedup st.history h2 topic (.request id method ps)
          chainId hset hinv t i

/-- Witness for C2 at concrete inputs: a request on an unknown topic is
dropped, and the dedup invariant holds after processing a fresh request on
the settled topic. -/
theorem c2_duplicate_requests_dropped_witness :
    onPayloadEvent sampleState "unknown" (.request 3 "m1" (.raw "x")) none =
      (sampleState, [], .ok ()) ∧
    historyCount
      (onPayloadEvent sampleState "st" (.request 3 "m1" (.raw "x")) none).1.history
      "st" 3 ≤ 1 :=
  ⟨(c2_duplicate_requests_dropped sampleState "unknown" 3 "m1" (.raw "x") none).1
      (Or.inl rfl),
   (c2_duplicate_requests_dropped sampleState "st" 3 "m1" (.raw "x") none).2
      (by intro t i; simp [sampleState, historyCount]) "st" 3⟩

/-- Claim C3: outbound requests on a settled session whose method is not a
built-in session-management method are permission-checked by `send`: a
method outside `permissions.jsonrpc.methods` fails with
`UNAUTHORIZED_JSON_RPC_METHOD`, and an authorized method with a target chain
outside `permissions.blockchain.chains` fails with
`UNAUTHORIZED_TARGET_CHAIN`; in both cases the state (including history) is
unchanged and nothing is published. -/
theorem c3_send_permission_checks
    (st : EngineState) (topic : String) (session : Settled) (id : Nat)
    (method : String) (ps : RpcParams) (chainId : Option String)
    (hlook : lookupStore st.settled topic = some session)
    (hbuiltin : SESSION_JSONRPC_METHODS.contains method = false) :
    (session.permissions.jsonrpc.methods.contains method = false →
      send st topic (.request id method ps) chainId =
        (st, [], .error (.UNAUTHORIZED_JSON_RPC_METHOD method))) ∧
    (∀ c, chainId = some c →
      session.permissions.jsonrpc.methods.contains method = true →
      session.permissions.blockchain.chains.contains c = false →
      send st topic (.request id method ps) chainId =
        (st, [], .error (.UNAUTHORIZED_TARGET_CHAIN c))) := by
  have hb2 : method ∉ SESSION_JSONRPC_METHODS := by simpa using hbuiltin
  constructor
  · intro hmethod
    have hm2 : method ∉ session.permissions.jsonrpc.methods := by simpa using hmethod
    simp [send, hlook, hb2, hm2]
  · intro c hc hmethod hchain
    subst hc
    have hm2 : method ∈ session.permissions.jsonrpc.methods := by simpa using hmethod
    have hc2 : c ∉ session.permissions.blockchain.chains := by simpa using hchain
    simp [send, hlook, hb2, hm2, hc2]

/-- Witness for C3 at concrete inputs: an unauthorized method and an
unauthorized target chain, both rejected with no publish. -/
theorem c3_send_permission_checks_witness :
    send sampleState "st" (.request 3 "m2" (.raw "x")) none =
      (sampleState, [], .error (.UNAUTHORIZED_JSON_RPC_METHOD "m2")) ∧
    send sampleState "st" (.request 3 "m1" (.raw "x")) (some "c9") =
      (sampleState, [], .error (.UNAUTHORIZED_TARGET_CHAIN "c9")) :=
  ⟨(c3_send_permission_checks sampleState "st" sampleSession 3 "m2" (.raw "x") none
      rfl (by decide)).1 (by decide),
   (c3_send_permission_checks sampleState "st" sampleSession 3 "m1" (.raw "x")
      (some "c9") rfl (by decide)).2 "c9" rfl (by decide) (by decide)⟩

/-- A sample shared-key derivation capability. -/
def sampleDerive : String → String → String := fun a b => a ++ b

/-- Counterexample to claim C4 as stated: an approved `respond` call in
which the settle step throws (transport unavailable) does NOT always return
normally with a responded pending record — when the write of the pending
record (a step after settle, covered by the same try/catch) also fails, the
catch block's second `pending.set` fails identically and `respond`
propagates the exception. -/
theorem c4_counterexample_pending_set_failure_propagates :
    respond "me" 0 sampleDerive false false [] []
      ⟨true, sampleProposal, ⟨["a1"]⟩, none⟩ =
    ([], [], .error .TRANSPORT_UNAVAILABLE) := rfl

/-- Claim C4 (amended): for an approved `respond` call in which the settle
step throws but the pending-store write succeeds, `respond` does not
propagate the exception: it returns normally with a pending record of
status responded whose outcome is a `GENERIC` failure reason built from the
thrown error's message, and the settled store is left as the failed settle
left it. -/
theorem c4_settle_failure_degrades_to_responded
    (selfKey : String) (now : Nat) (derive : String → String → String)
    (pendingStore : List (String × Pending)) (settledStore : List (String × Settled))
    (params : RespondParams)
    (happ : params.approved = true)
    (hfresh : lookupStore pendingStore params.proposal.topic = none) :
    ∃ (p : Pending) (m : String),
      (respond selfKey now derive false true pendingStore settledStore params).2.2 =
        .ok p ∧
      p.status = .responded ∧
      p.outcome = some (.failure (.GENERIC m)) ∧
      (respond selfKey now derive false true pendingStore settledStore params).2.1 =
        settledStore := by
  unfold respond settle storeSet
  by_cases hs : (lookupStore settledStore
      (derive selfKey params.proposal.proposer.publicKey)).isSome
  · simp [happ, hfresh, hs]
  · simp [happ, hfresh, hs]

/-- Witness for C4's amended claim at concrete inputs: transport down for
the settled store, pending store empty and writable. -/
theorem c4_settle_failure_degrades_to_responded_witness :
    ∃ (p : Pending) (m : String),
      (respond "me" 0 sampleDerive false true [] []
        ⟨true, sampleProposal, ⟨["a1"]⟩, none⟩).2.2 = .ok p ∧
      p.status = .responded ∧
      p.outcome = some (.failure (.GENERIC m)) ∧
      (respond "me" 0 sampleDerive false true [] []
        ⟨true, sampleProposal, ⟨["a1"]⟩, none⟩).2.1 = [] :=
  c4_settle_failure_degrades_to_responded "me" 0 sampleDerive [] []
    ⟨true, sampleProposal, ⟨["a1"]⟩, none⟩ rfl rfl

/-- Claim C5: a `respond` call with `approved = false` never touches the
settled store, and whenever it returns a pending record that record has
status responded and carries the caller-supplied rejection reason, or the
default `NOT_APPROVED` when none was supplied. -/
theorem c5_reject_yields_responded_without_settling
    (selfKey : String) (now : Nat) (derive : String → String → String)
    (settledOk pendingOk : Bool)
    (pendingStore : List (String × Pending)) (settledStore : List (String × Settled))
    (params : RespondParams)
    (happ : params.approved = false) :
    (respond selfKey now derive settledOk pendingOk pendingStore settledStore
        params).2.1 = settledStore ∧
    (∀ p, (respond selfKey now derive settledOk pendingOk pendingStore settledStore
        params).2.2 = .ok p →
      p.status = .responded ∧
      p.outcome = some (.failure (params.reason.getD .NOT_APPROVED))) := by
  unfold respond
  rw [if_neg (by simp [happ])]
  dsimp only
  constructor
  · split <;> rfl
  · intro p hp
    split at hp
    · injection hp with hp
      subst hp
      exact ⟨rfl, rfl⟩
    · exact absurd hp (by simp)

/-- Witness for C5 at concrete inputs: rejection with no supplied reason
yields a responded record with the default `NOT_APPROVED` reason and leaves
the settled store empty. -/
theorem c5_reject_yields_responded_without_settling_witness :
    (respond "me" 0 sampleDerive true true [] []
        ⟨false, sampleProposal, ⟨["a1"]⟩, none⟩).2.1 = ([] : List (String × Settled)) ∧
    (∀ p, (respond "me" 0 sampleDerive true true [] []
        ⟨false, sampleProposal, ⟨["a1"]⟩, none⟩).2.2 = .ok p →
      p.status = .responded ∧ p.outcome = some (.failure .NOT_APPROVED)) :=
  c5_reject_yields_responded_without_settling "me" 0 sampleDerive true true [] []
    ⟨false, sampleProposal, ⟨["a1"]⟩, none⟩ rfl

theorem historyExists_purge (h : List HistoryEntry) (t : String) (i : Nat) :
    historyExists (historyPurge h t) t i = false := by
  induction h with
  | nil => rfl
  | cons e rest ih =>
    simp only [historyPurge, List.filter_cons]
    by_cases hp : (e.topic != t) = true
    · rw [if_pos hp]
      have ht : (e.topic == t) = false := by simpa using hp
      simp only [historyExists, List.any_cons, ht, Bool.false_and, Bool.false_or]
      exact ih
    · rw [if_neg hp]
      exact ih

theorem lookupStore_remove {α : Type} (store : List (String × α)) (topic : String) :
    lookupStore (storeRemove store topic) topic = none := by
  induction store with
  | nil => rfl
  | cons kv rest ih =>
    simp only [storeRemove, List.filter_cons]
    by_cases hp : (kv.1 != topic) = true
    · rw [if_pos hp]
      have ht : (kv.1 == topic) = false := by simpa using hp
      simp only [lookupStore, List.find?_cons, ht]
      exact ih
    · rw [if_neg hp]
      exact ih

theorem settledDelete_pending_unchanged (st : EngineState) (topic : String)
    (reason : ErrorT) : (settledDelete st topic reason).1.pending = st.pending := by
  unfold settledDelete
  cases lookupStore st.settled topic <;> rfl

/-- Claim C8: deleting a settled session purges every request-history entry
for the session topic — `exists` is false afterwards for every id — and
publishes a `wc_sessionDelete` request carrying the deletion reason on the
session topic. -/
theorem c8_delete_purges_history_and_notifies_peer
    (st : EngineState) (topic : String) (reason : ErrorT) (session : Settled)
    (hlook : lookupStore st.settled topic = some session) :
    (∀ id, historyExists (deleteSession st ⟨topic, reason⟩).1.history
        session.topic id = false) ∧
    (session.topic, Payload.request 0 "wc_sessionDelete" (.deleteArgs reason)) ∈
      (deleteSession st ⟨topic, reason⟩).2.1 := by
  unfold deleteSession settledDelete
  rw [hlook]
  exact ⟨fun id => historyExists_purge st.history session.topic id, by simp⟩

/-- Witness for C8 at concrete inputs: deleting the sample session on a
state whose history holds an entry for its topic. -/
theorem c8_delete_purges_history_and_notifies_peer_witness :
    (∀ id, historyExists
        (deleteSession
          { sampleState with history := [⟨"st", 3, .request 3 "m1" (.raw "x"), none, none⟩] }
          ⟨"st", .EXPIRED⟩).1.history "st" id = false) ∧
    ("st", Payload.request 0 "wc_sessionDelete" (.deleteArgs .EXPIRED)) ∈
      (deleteSession
        { sampleState with history := [⟨"st", 3, .request 3 "m1" (.raw "x"), none, none⟩] }
        ⟨"st", .EXPIRED⟩).2.1 :=
  c8_delete_purges_history_and_notifies_peer
    { sampleState with history := [⟨"st", 3, .request 3 "m1" (.raw "x"), none, none⟩] }
    "st" .EXPIRED sampleSession rfl

/-- Claim C7: on a responded pending record, an inbound error
acknowledgement with a non-failed outcome deletes the settled record at the
outcome topic with that error as reason; and any inbound acknowledgement
deletes the pending record with reason `RESPONSE_ACKNOWLEDGED` and
completes without error. -/
theorem c7_acknowledge_rolls_back_and_deletes_pending
    (st : EngineState) (topic : String) (p : Pending) (o : SessionOutcome)
    (hlook : lookupStore st.pending topic = some p)
    (hresp : p.status = .responded)
    (hout : p.outcome = some o) :
    (∀ (id : Nat) (e : ErrorT) (stopic srelay : String) (sstate : SessionState)
       (resp : Participant) (sexp : Nat) (sess : Settled),
      o = .success stopic srelay sstate resp sexp →
      lookupStore st.settled stopic = some sess →
      sess.topic = stopic →
      (Emitted.settledDeletedEv stopic e ∈
        (onAcknowledge st topic (.rpcError id e)).2.2.1 ∧
       lookupStore (onAcknowledge st topic (.rpcError id e)).1.settled stopic = none)) ∧
    (∀ payload,
      lookupStore (onAcknowledge st topic payload).1.pending topic = none ∧
      Emitted.pendingDeletedEv topic .RESPONSE_ACKNOWLEDGED ∈
        (onAcknowledge st topic payload).2.2.1 ∧
      (onAcknowledge st topic payload).2.2.2 = .ok ()) := by
  have hrespb : isSessionResponded p = true := by
    simp [isSessionResponded, hresp]
  constructor
  · intro id e stopic srelay sstate resp sexp sess hsucc hsess htop
    subst hsucc
    unfold onAcknowledge
    rw [hlook]
    simp only [hrespb, if_true, hout]
    unfold settledDelete
    rw [hsess]
    unfold pendingDelete
    refine ⟨by simp [htop], ?_⟩
    simp only
    exact lookupStore_remove st.settled stopic
  · intro payload
    unfold onAcknowledge
    rw [hlook]
    simp only [hrespb, if_true, hout]
    have hpend : ∀ (roll : EngineState × List Published × List Emitted),
        roll.1.pending = st.pending →
        (lookupStore (pendingDelete roll.1 topic .RESPONSE_ACKNOWLEDGED).1.pending
            topic = none ∧
         Emitted.pendingDeletedEv topic .RESPONSE_ACKNOWLEDGED ∈
           roll.2.2 ++ (pendingDelete roll.1 topic .RESPONSE_ACKNOWLEDGED).2) := by
      intro roll hr
      unfold pendingDelete
      constructor
      · simp only [hr]
        exact lookupStore_remove st.pending topic
      · simp [hr, hlook]
    cases payload with
    | request rid rme rps =>
      cases o <;> exact ⟨(hpend _ rfl).1, (hpend _ rfl).2, trivial⟩
    | result rid rv =>
      cases o <;> exact ⟨(hpend _ rfl).1, (hpend _ rfl).2, trivial⟩
    | rpcError rid re =>
      cases o with
      | failure r => exact ⟨(hpend _ rfl).1, (hpend _ rfl).2, trivial⟩
      | success a b c d f =>
        exact ⟨(hpend _ (settledDelete_pending_unchanged st a re)).1,
               (hpend _ (settledDelete_pending_unchanged st a re)).2, trivial⟩

/-- A responded pending record over the sample proposal with a successful
outcome at the sample session's topic. -/
def sampleResponded : Pending :=
  { status := .responded, topic := "pt", relay := "r", self := ⟨"me"⟩,
    proposal := sampleProposal,
    outcome := some (.success "st" "r" ⟨["a1"]⟩ ⟨"me"⟩ 9) }

/-- Witness for C7 at concrete inputs: an error acknowledgement on a
responded pending record with a successful outcome rolls back the settled
record and deletes the pending record. -/
theorem c7_acknowledge_rolls_back_and_deletes_pending_witness :
    (Emitted.settledDeletedEv "st" (.GENERIC "boom") ∈
      (onAcknowledge { sampleState with pending := [("pt", sampleResponded)] } "pt"
        (.rpcError 5 (.GENERIC "boom"))).2.2.1 ∧
     lookupStore (onAcknowledge { sampleState with pending := [("pt", sampleResponded)] }
        "pt" (.rpcError 5 (.GENERIC "boom"))).1.settled "st" = none) ∧
    lookupStore (onAcknowledge { sampleState with pending := [("pt", sampleResponded)] }
        "pt" (.rpcError 5 (.GENERIC "boom"))).1.pending "pt" = none :=
  ⟨(c7_acknowledge_rolls_back_and_deletes_pending
      { sampleState with pending := [("pt", sampleResponded)] } "pt" sampleResponded
      (.success "st" "r" ⟨["a1"]⟩ ⟨"me"⟩ 9) rfl rfl rfl).1 5 (.GENERIC "boom")
      "st" "r" ⟨["a1"]⟩ ⟨"me"⟩ 9 sampleSession rfl rfl rfl,
   ((c7_acknowledge_rolls_back_and_deletes_pending
      { sampleState with pending := [("pt", sampleResponded)] } "pt" sampleResponded
      (.success "st" "r" ⟨["a1"]⟩ ⟨"me"⟩ 9) rfl rfl rfl).2
      (.rpcError 5 (.GENERIC "boom"))).1⟩

/-- Claim C10: an inbound `wc_sessionPing` request on a settled topic makes
`onMessage` reply on the session topic with a JSON-RPC success result whose
id matches the request and whose result value is the boolean `false`, and a
`request()` caller correlating that response resolves with `false`. -/
theorem c10_ping_replies_with_false
    (st : EngineState) (topic : String) (session : Settled) (id : Nat)
    (hlook : lookupStore st.settled topic = some session)
    (htop : session.topic = topic) :
    onMessage st topic (.request id "wc_sessionPing" .empty) =
      ({ st with history := historyUpdate st.history session.topic (.result id false) },
       [(session.topic, .result id false)], [], .ok ()) ∧
    responseResolution (.result id false) = some (.ok false) := by
  have hlook2 : lookupStore st.settled session.topic = some session := by
    rw [htop]; exact hlook
  constructor
  · unfold onMessage
    rw [hlook]
    simp only [String.reduceEq, if_false, beq_iff_eq, reduceCtorEq]
    unfold send
    rw [hlook2]
    simp only [if_true]
  · rfl

/-- Witness for C10 at concrete inputs: a ping with id 7 on the sample
state is answered by a result payload carrying `false`. -/
theorem c10_ping_replies_with_false_witness :
    onMessage sampleState "st" (.request 7 "wc_sessionPing" .empty) =
      ({ sampleState with
          history := historyUpdate sampleState.history "st" (.result 7 false) },
       [("st", .result 7 false)], [], .ok ()) ∧
    responseResolution (.result 7 false) = some (.ok false) :=
  c10_ping_replies_with_false sampleState "st" sampleSession 7 rfl rfl

end WC
